import Mathlib

/-!
Verification of the LavpopBusinessIntelligence CSV ingestion pipeline.

Shallow embedding of `supabase_uploader.py`: the Brazilian-locale parsers,
the transaction classifier, the deduplication hash, and the two upload
entry points (`upload_sales_csv`, `upload_customers_csv`), together with
theorems settling the frozen claims about them.

Python strings are modelled as Lean `String`; Python `float` money values
are modelled as `ℚ` (which is exact on the decimal literals the pipeline
parses and faithfully decides the comparisons with zero the code makes);
Python functions that can raise are modelled as `Except String`-valued
functions; the backend client is a parameter supplying the outcome of each
network call.
-/

attribute [local semireducible] Rat.mul Rat.inv Rat.add Rat.sub Rat.ofScientific

/-- Decidable equality of `Except` values (needed to evaluate the
`Except String`-valued embeddings at concrete inputs). -/
def exceptDecEq {ε α : Type} [DecidableEq ε] [DecidableEq α] :
    DecidableEq (Except ε α)
  | .error a, .error b =>
    if h : a = b then .isTrue (h ▸ rfl)
    else .isFalse (fun c => by cases c; exact h rfl)
  | .error _, .ok _ => .isFalse (fun c => by cases c)
  | .ok _, .error _ => .isFalse (fun c => by cases c)
  | .ok a, .ok b =>
    if h : a = b then .isTrue (h ▸ rfl)
    else .isFalse (fun c => by cases c; exact h rfl)

instance {ε α : Type} [DecidableEq ε] [DecidableEq α] : DecidableEq (Except ε α) :=
  exceptDecEq

namespace Lavpop

/-! ## Python string primitives used by the uploader -/

/-- Python `str.strip()` restricted to its default whitespace-stripping form. -/
def pyStrip (s : String) : String :=
  ⟨(s.data.dropWhile Char.isWhitespace).reverse.dropWhile Char.isWhitespace |>.reverse⟩

/-- Python `str.lower()` (ASCII range, which is all the pipeline compares). -/
def pyLower (s : String) : String := ⟨s.data.map Char.toLower⟩

/-- Python `str.upper()` (ASCII range). -/
def pyUpper (s : String) : String := ⟨s.data.map Char.toUpper⟩

/-- Does `pat` occur as a prefix of `l`? (char-list version of Python startswith). -/
def listStartsWith : List Char → List Char → Bool
  | p :: ps, q :: qs => if p = q then listStartsWith ps qs else false
  | pat, _ => pat.isEmpty

/-- Does `pat` occur as a contiguous substring of `hay`? -/
def listContainsSub (pat : List Char) : List Char → Bool
  | [] => pat.isEmpty
  | c :: rest => listStartsWith pat (c :: rest) || listContainsSub pat rest

/-- Python's `pat in s` substring test. -/
def pyIn (pat s : String) : Bool := listContainsSub pat.data s.data

/-- Python `str.count(c)` for a single-character needle. -/
def pyCountChar (s : String) (c : Char) : Nat := s.data.countP (· = c)

/-- Python `str.zfill(n)`: left-pad with zeros to width `n`, keeping a
leading sign in front of the padding. -/
def pyZfill (s : String) (n : Nat) : String :=
  if s.length ≥ n then s
  else
    match s.data with
    | c :: rest =>
      if c = '+' ∨ c = '-' then
        ⟨c :: (List.replicate (n - s.length) '0' ++ rest)⟩
      else ⟨List.replicate (n - s.length) '0' ++ s.data⟩
    | [] => ⟨List.replicate n '0'⟩

/-- Helper for `pySplitOnce`: scan for the first separator. -/
def splitOnceAux (sep : Char) : List Char → List Char → String × Option String
  | [], acc => (⟨acc.reverse⟩, none)
  | c :: rest, acc =>
    if c = sep then (⟨acc.reverse⟩, some ⟨rest⟩) else splitOnceAux sep rest (c :: acc)

/-- Python `s.split(sep, 1)`: split at the first occurrence of `sep` only.
Returns the part before and, when `sep` occurs, the part after. -/
def pySplitOnce (s : String) (sep : Char) : String × Option String :=
  splitOnceAux sep s.data []

/-- Helper for `pySplitChar`: accumulate the current piece. -/
def splitAllAux (sep : Char) : List Char → List Char → List String
  | [], acc => [⟨acc.reverse⟩]
  | c :: rest, acc =>
    if c = sep then ⟨acc.reverse⟩ :: splitAllAux sep rest []
    else splitAllAux sep rest (c :: acc)

/-- Python `s.split(sep)` for a single-character separator (no limit):
`"a;;b".split(';') = ["a", "", "b"]`, `"".split(';') = [""]`. -/
def pySplitChar (s : String) (sep : Char) : List String := splitAllAux sep s.data []

/-- Python `str.replace(a, b)` for single characters. -/
def pyReplaceChar (s : String) (a b : Char) : String :=
  ⟨s.data.map (fun c => if c = a then b else c)⟩

/-- Python `str.replace(a, '')` for a single character: drop every occurrence. -/
def pyDropChar (s : String) (a : Char) : String := ⟨s.data.filter (· ≠ a)⟩

/-- The digits of a decimal string as a number (the string is all ASCII digits). -/
def digitsToNat (l : List Char) : Nat :=
  l.foldl (fun acc c => acc * 10 + (c.toNat - 48)) 0

/-- Is every character an ASCII digit (and the list nonempty)? -/
def allDigits (l : List Char) : Bool := !l.isEmpty && l.all Char.isDigit

/-! ## Python numeric constructors

`float(s)` and `int(s)` raise `ValueError` on malformed input.  They are
modelled on the finite decimal fragment Python accepts (optional sign,
digits with an optional decimal point, optional exponent for `float`);
the special values `inf`/`nan` and underscore digit grouping lie outside
the fragment the pipeline ever receives and are treated as malformed. -/

/-- Split an optional leading sign off a char list; `true` means negative. -/
def splitSign : List Char → Bool × List Char
  | '+' :: rest => (false, rest)
  | '-' :: rest => (true, rest)
  | l => (false, l)

/-- Parse the `digits[.digits]` mantissa of a Python float literal, requiring at
least one digit overall. Returns the value as a rational. -/
def parseMantissa (l : List Char) : Option ℚ :=
  match splitOnceAux '.' l [] with
  | (intPart, none) =>
    if allDigits intPart.data then some (digitsToNat intPart.data : ℚ) else none
  | (intPart, some fracPart) =>
    let ip := intPart.data
    let fp := fracPart.data
    if (allDigits ip || ip.isEmpty) && (allDigits fp || fp.isEmpty)
        && !(ip.isEmpty && fp.isEmpty) then
      some ((digitsToNat ip : ℚ) + (digitsToNat fp : ℚ) / (10 : ℚ) ^ fp.length)
    else none

/-- Model of Python `float(s)` on finite decimal literals. -/
def pyFloat (s : String) : Except String ℚ :=
  let t := pyStrip s
  let (neg, body) := splitSign t.data
  let (mant, expPart) :=
    match splitOnceAux 'e' (body.map Char.toLower) [] with
    | (m, none) => (m.data, (none : Option (List Char)))
    | (m, some e) => (m.data, some e.data)
  let failMsg := "could not convert string to float: " ++ s
  match parseMantissa mant with
  | none => .error failMsg
  | some q =>
    let signed := if neg then -q else q
    match expPart with
    | none => .ok signed
    | some e =>
      let (eneg, edigits) := splitSign e
      if allDigits edigits then
        let n := digitsToNat edigits
        .ok (if eneg then signed / (10 : ℚ) ^ n else signed * (10 : ℚ) ^ n)
      else .error failMsg

/-- Model of Python `int(s)` on decimal literals. -/
def pyInt (s : String) : Except String Int :=
  let t := pyStrip s
  let (neg, body) := splitSign t.data
  if allDigits body then
    .ok (if neg then -(digitsToNat body : Int) else (digitsToNat body : Int))
  else .error ("invalid literal for int with base 10: " ++ s)

/-! ## SHA-256 (model of Python `hashlib.sha256`)

A direct FIPS 180-4 implementation over byte lists, with 32-bit words as
`Nat` reduced modulo `2^32`. -/

/-- The word modulus `2^32`. -/
def M32 : Nat := 4294967296

/-- Right rotation of a 32-bit word. -/
def rotr (n x : Nat) : Nat := ((x >>> n) ||| (x <<< (32 - n))) % M32

/-- Bitwise complement of a 32-bit word. -/
def bnot32 (x : Nat) : Nat := 4294967295 ^^^ x

/-- The SHA-256 round constants (fractional cube roots of the first 64 primes). -/
def shaK : List Nat :=
  [1116352408, 1899447441, 3049323471, 3921009573, 961987163, 1508970993,
   2453635748, 2870763221, 3624381080, 310598401, 607225278, 1426881987,
   1925078388, 2162078206, 2614888103, 3248222580, 3835390401, 4022224774,
   264347078, 604807628, 770255983, 1249150122, 1555081692, 1996064986,
   2554220882, 2821834349, 2952996808, 3210313671, 3336571891, 3584528711,
   113926993, 338241895, 666307205, 773529912, 1294757372, 1396182291,
   1695183700, 1986661051, 2177026350, 2456956037, 2730485921, 2820302411,
   3259730800, 3345764771, 3516065817, 3600352804, 4094571909, 275423344,
   430227734, 506948616, 659060556, 883997877, 958139571, 1322822218,
   1537002063, 1747873779, 1955562222, 2024104815, 2227730452, 2361852424,
   2428436474, 2756734187, 3204031479, 3329325298]

/-- The SHA-256 hash state: eight 32-bit words. -/
structure Hv where
  a : Nat
  b : Nat
  c : Nat
  d : Nat
  e : Nat
  f : Nat
  g : Nat
  h : Nat
deriving Repr, DecidableEq

/-- The SHA-256 initial hash value (fractional square roots of the first 8 primes). -/
def shaH0 : Hv :=
  ⟨1779033703, 3144134277, 1013904242, 2773480762,
   1359893119, 2600822924, 528734635, 1541459225⟩

/-- Message-schedule sigma-0. -/
def ssig0 (x : Nat) : Nat := rotr 7 x ^^^ rotr 18 x ^^^ (x >>> 3)

/-- Message-schedule sigma-1. -/
def ssig1 (x : Nat) : Nat := rotr 17 x ^^^ rotr 19 x ^^^ (x >>> 10)

/-- Compression Sigma-0. -/
def bsig0 (x : Nat) : Nat := rotr 2 x ^^^ rotr 13 x ^^^ rotr 22 x

/-- Compression Sigma-1. -/
def bsig1 (x : Nat) : Nat := rotr 6 x ^^^ rotr 11 x ^^^ rotr 25 x

/-- Pack a 64-byte block into sixteen big-endian 32-bit words. -/
def wordsOfBlock : List Nat → List Nat
  | b0 :: b1 :: b2 :: b3 :: rest =>
    (((b0 * 256 + b1) * 256 + b2) * 256 + b3) :: wordsOfBlock rest
  | _ => []

/-- Append the next word of the message schedule. -/
def scheduleStep (ws : List Nat) : List Nat :=
  let i := ws.length
  let w16 := ws.getD (i - 16) 0
  let w15 := ws.getD (i - 15) 0
  let w7 := ws.getD (i - 7) 0
  let w2 := ws.getD (i - 2) 0
  ws ++ [(w16 + ssig0 w15 + w7 + ssig1 w2) % M32]

/-- Extend the 16-word schedule by `n` further words. -/
def buildSchedule (ws : List Nat) : Nat → List Nat
  | 0 => ws
  | n + 1 => buildSchedule (scheduleStep ws) n

/-- One SHA-256 compression round, consuming a `(k, w)` pair. -/
def shaRound (s : Hv) (kw : Nat × Nat) : Hv :=
  let t1 := (s.h + bsig1 s.e + ((s.e &&& s.f) ^^^ (bnot32 s.e &&& s.g))
             + kw.1 + kw.2) % M32
  let t2 := (bsig0 s.a + ((s.a &&& s.b) ^^^ (s.a &&& s.c) ^^^ (s.b &&& s.c))) % M32
  ⟨(t1 + t2) % M32, s.a, s.b, s.c, (s.d + t1) % M32, s.e, s.f, s.g⟩

/-- Compress one 64-byte block into the hash state. -/
def compressBlock (s : Hv) (block : List Nat) : Hv :=
  let w := buildSchedule (wordsOfBlock block) 48
  let t := (shaK.zip w).foldl shaRound s
  ⟨(s.a + t.a) % M32, (s.b + t.b) % M32, (s.c + t.c) % M32, (s.d + t.d) % M32,
   (s.e + t.e) % M32, (s.f + t.f) % M32, (s.g + t.g) % M32, (s.h + t.h) % M32⟩

/-- Big-endian bytes of `n`, `k` bytes wide. -/
def beBytes : Nat → Nat → List Nat
  | 0, _ => []
  | k + 1, n => (n >>> (8 * k)) % 256 :: beBytes k n

/-- SHA-256 padding: a `0x80` byte, zeros to 56 mod 64, and the bit length. -/
def padMessage (msg : List Nat) : List Nat :=
  let L := msg.length
  let zeros := (120 - (L + 1) % 64) % 64
  msg ++ 128 :: List.replicate zeros 0 ++ beBytes 8 (8 * L)

/-- Fuel-driven chunking helper (structural recursion on the fuel). -/
def listChunksFuel (n : Nat) : Nat → List α → List (List α)
  | _, [] => []
  | 0, _ => []
  | fuel + 1, x :: xs =>
    (x :: xs).take (n + 1) :: listChunksFuel n fuel ((x :: xs).drop (n + 1))

/-- Split a list into chunks of `n + 1` elements (the last may be shorter). -/
def listChunks (n : Nat) (l : List α) : List (List α) := listChunksFuel n l.length l

/-- SHA-256 of a byte list, as the final eight-word state. -/
def sha256Words (msg : List Nat) : Hv :=
  (listChunks 63 (padMessage msg)).foldl compressBlock shaH0

/-- The lowercase hexadecimal digits. -/
def hexTable : List Char := "0123456789abcdef".data

/-- The hex digit of `n % 16`. -/
def hexChar (n : Nat) : Char := hexTable.getD (n % 16) '0'

/-- The eight hex characters of a 32-bit word, most significant first. -/
def wordHexChars (w : Nat) : List Char :=
  [hexChar (w / 268435456), hexChar (w / 16777216), hexChar (w / 1048576),
   hexChar (w / 65536), hexChar (w / 4096), hexChar (w / 256),
   hexChar (w / 16), hexChar w]

/-- The 64 hex characters of a SHA-256 digest (Python `hexdigest()`). -/
def sha256hexChars (msg : List Nat) : List Char :=
  let s := sha256Words msg
  wordHexChars s.a ++ wordHexChars s.b ++ wordHexChars s.c ++ wordHexChars s.d ++
  wordHexChars s.e ++ wordHexChars s.f ++ wordHexChars s.g ++ wordHexChars s.h

/-- UTF-8 encoding of one character (Python `str.encode()`). -/
def utf8Char (c : Char) : List Nat :=
  let n := c.toNat
  if n < 128 then [n]
  else if n < 2048 then [192 ||| (n >>> 6), 128 ||| (n &&& 63)]
  else if n < 65536 then
    [224 ||| (n >>> 12), 128 ||| ((n >>> 6) &&& 63), 128 ||| (n &&& 63)]
  else
    [240 ||| (n >>> 18), 128 ||| ((n >>> 12) &&& 63),
     128 ||| ((n >>> 6) &&& 63), 128 ||| (n &&& 63)]

/-- UTF-8 bytes of a string (Python `str.encode()`). -/
def utf8Bytes (s : String) : List Nat := (s.data.map utf8Char).flatten

/-- Model of `generate_hash` (supabase_uploader.py:253): join the four raw fields with
`|`, SHA-256 the UTF-8 bytes, and keep the first 32 hex characters. -/
def generate_hash (data_hora doc_cliente valor_venda maquinas : String) : String :=
  let content := data_hora ++ "|" ++ doc_cliente ++ "|" ++ valor_venda ++ "|" ++ maquinas
  ⟨(sha256hexChars (utf8Bytes content)).take 32⟩

/-! ## CSV utilities (supabase_uploader.py:83-112) -/

/-- Model of `detect_delimiter` (supabase_uploader.py:90): compare semicolon and comma
counts in the first line; strict semicolon majority yields `";"`. -/
def detect_delimiter (text : String) : String :=
  let first_line := if text = "" then "" else (pySplitChar text '\n').headD ""
  let semicolons := pyCountChar first_line ';'
  let commas := pyCountChar first_line ','
  if semicolons > commas then ";" else ","

/-! ## Brazilian format parsers (supabase_uploader.py:117-204) -/

/-- Model of `parse_br_date` (supabase_uploader.py:117): `DD/MM/YYYY [HH:MM:SS]` to
ISO `YYYY-MM-DDTHH:MM:SS`; `none` when blank or when the date part does not
split into exactly three `/`-separated fields. -/
def parse_br_date (date_str : String) : Option String :=
  if pyStrip date_str = "" then none
  else
    let t := pyStrip date_str
    let date_part := (pySplitOnce t ' ').1
    let time_part := (pySplitOnce t ' ').2.getD "00:00:00"
    match pySplitChar date_part '/' with
    | [day, month, year] =>
      let year := if year.length = 2 then "20" ++ year else year
      some (year ++ "-" ++ pyZfill month 2 ++ "-" ++ pyZfill day 2 ++ "T" ++ time_part)
    | _ => none

/-- Model of `parse_br_date_only` (supabase_uploader.py:151): the date part of
`parse_br_date`. -/
def parse_br_date_only (date_str : String) : Option String :=
  match parse_br_date date_str with
  | some iso => some ((pySplitChar iso 'T').headD "")
  | none => none

/-- Model of `parse_br_number` (supabase_uploader.py:163): Brazilian decimal notation to
a number; empty or blank input is `0`, and the underlying `float` conversion
raises (`.error`) on malformed input. -/
def parse_br_number (value : String) : Except String ℚ :=
  if value = "" then .ok 0
  else
    let s := pyStrip value
    if s = "" then .ok 0
    else if pyIn "." s && pyIn "," s then
      pyFloat (pyReplaceChar (pyDropChar s '.') ',' '.')
    else if pyIn "," s then
      pyFloat (pyReplaceChar s ',' '.')
    else pyFloat s

/-- Model of `normalize_cpf` (supabase_uploader.py:185): keep only digits, pad to 11
with leading zeros, or keep the last 11 when longer. -/
def normalize_cpf (doc : String) : String :=
  if doc = "" then ""
  else
    let digits := ⟨doc.data.filter Char.isDigit⟩
    if digits = "" then ""
    else if digits.length < 11 then pyZfill digits 11
    else if digits.length > 11 then ⟨digits.data.drop (digits.length - 11)⟩
    else digits

/-! ## Transaction helpers (supabase_uploader.py:209-259) -/

/-- The machine counts returned by `count_machines`. -/
structure MachineInfo where
  wash : Nat
  dry : Nat
  total : Nat
deriving Repr, DecidableEq

/-- Model of `count_machines` (supabase_uploader.py:209): split the machine field on
commas and count entries naming a washer or a dryer. -/
def count_machines (machine_str : String) : MachineInfo :=
  if machine_str = "" then ⟨0, 0, 0⟩
  else
    let machines := pySplitChar (pyLower machine_str) ','
    let wash := machines.countP (fun m => pyIn "lavadora" m)
    let dry := machines.countP (fun m => pyIn "secadora" m)
    ⟨wash, dry, wash + dry⟩

/-- A parsed sales CSV row: the columns `upload_sales_csv` and
`classify_transaction` read, `none` meaning the column is absent. -/
structure SalesRow where
  Data_Hora : Option String := none
  Doc_Cliente : Option String := none
  Valor_Venda : Option String := none
  Valor_Pago : Option String := none
  Maquinas : Option String := none
  Meio_de_Pagamento : Option String := none
  Comprovante_cartao : Option String := none
  Bandeira_Cartao : Option String := none
  Loja : Option String := none
  Nome_Cliente : Option String := none
  Telefone : Option String := none
  Usou_Cupom : Option String := none
  Codigo_Cupom : Option String := none
deriving Repr, DecidableEq

/-- Model of `classify_transaction` (supabase_uploader.py:224): first matching rule wins
(recharge, wallet balance, zero-gross wallet purchase, normal purchase,
unknown); the gross-value parse can raise. -/
def classify_transaction (row : SalesRow) : Except String String := do
  let machine_str := pyLower (row.Maquinas.getD "")
  let payment_method := pyLower (row.Meio_de_Pagamento.getD "")
  let gross_value ← parse_br_number (row.Valor_Venda.getD "0")
  if pyIn "recarga" machine_str then return "TYPE_3"
  if pyIn "saldo da carteira" payment_method then return "TYPE_2"
  if gross_value = 0 ∧ machine_str ≠ "" ∧ ¬ pyIn "recarga" machine_str then
    return "TYPE_2"
  if machine_str ≠ "" ∧ ¬ pyIn "recarga" machine_str ∧ gross_value > 0 then
    return "TYPE_1"
  return "UNKNOWN"

/-! ## Dates and rounding used by the sales pipeline -/

/-- Gregorian leap year. -/
def isLeapYear (y : Nat) : Bool := y % 4 = 0 && (y % 100 ≠ 0 || y % 400 = 0)

/-- Days in a month of the Gregorian calendar. -/
def daysInMonth (y m : Nat) : Nat :=
  if m = 2 then (if isLeapYear y then 29 else 28)
  else if m = 4 ∨ m = 6 ∨ m = 9 ∨ m = 11 then 30
  else 31

/-- Model of Python `datetime.strptime(s, "%Y-%m-%d")`: a 4-digit year, a
1-2 digit month and day, and a calendar-valid date; anything else raises. -/
def strptimeYmd (s : String) : Except String (Nat × Nat × Nat) :=
  match pySplitChar s '-' with
  | [y, m, d] =>
    if allDigits y.data ∧ y.length = 4 ∧ allDigits m.data ∧ m.length ≤ 2
        ∧ allDigits d.data ∧ d.length ≤ 2 then
      let yv := digitsToNat y.data
      let mv := digitsToNat m.data
      let dv := digitsToNat d.data
      if 1 ≤ yv ∧ 1 ≤ mv ∧ mv ≤ 12 ∧ 1 ≤ dv ∧ dv ≤ daysInMonth yv mv then
        .ok (yv, mv, dv)
      else .error (s!"time data {s} does not match format %Y-%m-%d")
    else .error (s!"time data {s} does not match format %Y-%m-%d")
  | _ => .error (s!"time data {s} does not match format %Y-%m-%d")

/-- Date comparison (`datetime.__ge__` on midnight datetimes, flipped). -/
def dateLe : Nat × Nat × Nat → Nat × Nat × Nat → Bool
  | (y1, m1, d1), (y2, m2, d2) =>
    y1 < y2 || (y1 = y2 && (m1 < m2 || (m1 = m2 && d1 ≤ d2)))

/-- Model of Python `round(x, 2)`: round to 2 decimal places, ties to even. -/
def pyRound2 (q : ℚ) : ℚ :=
  let x := q * 100
  let n := ⌊x⌋
  let r : ℤ :=
    if x - n > 1 / 2 then n + 1
    else if x - n < 1 / 2 then n
    else if n % 2 = 0 then n else n + 1
  (r : ℚ) / 100

/-! ## Sales upload (supabase_uploader.py:305-452) -/

/-- One record of the `transactions` dict built by `upload_sales_csv`. -/
structure Transaction where
  data_hora : String
  valor_venda : ℚ
  valor_pago : ℚ
  meio_de_pagamento : Option String
  comprovante_cartao : Option String
  bandeira_cartao : Option String
  loja : Option String
  nome_cliente : Option String
  doc_cliente : String
  telefone : Option String
  maquinas : Option String
  usou_cupom : Bool
  codigo_cupom : Option String
  transaction_type : String
  is_recarga : Bool
  wash_count : Nat
  dry_count : Nat
  total_services : Nat
  net_value : ℚ
  cashback_amount : ℚ
  import_hash : String
  source_file : String
deriving Repr, DecidableEq

/-- Python `x or None` on an optional string field: empty becomes `None`. -/
def orNone (v : Option String) : Option String :=
  match v with
  | some s => if s = "" then none else some s
  | none => none

/-- The settings-derived configuration of one sales run. -/
structure SalesCfg where
  cashback_rate : ℚ
  cashback_start : Nat × Nat × Nat
  source : String
deriving Repr, DecidableEq

/-- The state threaded through the row loop of `upload_sales_csv`:
accumulated transactions, the skipped and error tallies, and the
`seen_hashes` set (as a list in insertion order). -/
structure SalesAcc where
  transactions : List Transaction
  skipped : Nat
  errors : List String
  seen : List String
deriving Repr, DecidableEq

/-- The body of the row loop of `upload_sales_csv`
(supabase_uploader.py:350-429) for row index `i`: skip rows without a
parseable date or a nonempty normalized CPF, silently drop rows whose
dedup hash was already seen, catch any raising step as a row error, and
otherwise append the enriched transaction. -/
def processSalesRow (cfg : SalesCfg) (acc : SalesAcc) (i : Nat) (row : SalesRow) :
    SalesAcc :=
  match parse_br_date (row.Data_Hora.getD "") with
  | none => { acc with skipped := acc.skipped + 1 }
  | some data_hora =>
    let doc_cliente := normalize_cpf (row.Doc_Cliente.getD "")
    if doc_cliente = "" then { acc with skipped := acc.skipped + 1 }
    else
      match parse_br_number (row.Valor_Venda.getD "0") with
      | .error e => { acc with errors := acc.errors ++ [s!"Row {i + 1}: {e}"] }
      | .ok gross_value =>
        match parse_br_number (row.Valor_Pago.getD "0") with
        | .error e => { acc with errors := acc.errors ++ [s!"Row {i + 1}: {e}"] }
        | .ok paid_value =>
          let machine_str := row.Maquinas.getD ""
          let import_hash := generate_hash (row.Data_Hora.getD "")
            (row.Doc_Cliente.getD "") (row.Valor_Venda.getD "") machine_str
          if import_hash ∈ acc.seen then acc
          else
            let seen := acc.seen ++ [import_hash]
            match classify_transaction row with
            | .error e =>
              { acc with errors := acc.errors ++ [s!"Row {i + 1}: {e}"], seen := seen }
            | .ok tx_type =>
              let is_recarga := pyIn "recarga" (pyLower machine_str)
              let machine_info := count_machines machine_str
              match strptimeYmd ((pySplitChar data_hora 'T').headD "") with
              | .error e =>
                { acc with errors := acc.errors ++ [s!"Row {i + 1}: {e}"], seen := seen }
              | .ok tx_date =>
                let cashback_amount :=
                  if dateLe cfg.cashback_start tx_date ∧ gross_value > 0 then
                    pyRound2 (gross_value * cfg.cashback_rate)
                  else 0
                let net_value :=
                  if dateLe cfg.cashback_start tx_date ∧ gross_value > 0 then
                    pyRound2 (paid_value - cashback_amount)
                  else paid_value
                let usou_cupom := pyLower (row.Usou_Cupom.getD "") = "sim"
                let cc := row.Codigo_Cupom.getD ""
                let codigo_cupom :=
                  if cc ≠ "" ∧ pyLower cc ≠ "n/d" then some (pyUpper (pyStrip cc))
                  else none
                let tx : Transaction :=
                  { data_hora := data_hora
                    valor_venda := gross_value
                    valor_pago := paid_value
                    meio_de_pagamento := orNone row.Meio_de_Pagamento
                    comprovante_cartao := orNone row.Comprovante_cartao
                    bandeira_cartao := orNone row.Bandeira_Cartao
                    loja := orNone row.Loja
                    nome_cliente := orNone row.Nome_Cliente
                    doc_cliente := doc_cliente
                    telefone := orNone row.Telefone
                    maquinas := orNone (some machine_str)
                    usou_cupom := usou_cupom
                    codigo_cupom := codigo_cupom
                    transaction_type := tx_type
                    is_recarga := is_recarga
                    wash_count := machine_info.wash
                    dry_count := machine_info.dry
                    total_services := machine_info.total
                    net_value := net_value
                    cashback_amount := cashback_amount
                    import_hash := import_hash
                    source_file := cfg.source }
                { acc with transactions := acc.transactions ++ [tx], seen := seen }

/-- The row loop of `upload_sales_csv`, indexing rows from `i`. -/
def processSalesRows (cfg : SalesCfg) : Nat → List SalesRow → SalesAcc → SalesAcc
  | _, [], acc => acc
  | i, row :: rest, acc => processSalesRows cfg (i + 1) rest (processSalesRow cfg acc i row)

/-- The batch-upsert loop of `upload_sales_csv` (supabase_uploader.py:432-441):
`upsertB` is the backend's response to upserting batch number `idx`; a
successful batch adds its length to `inserted`, a raising one appends a batch
error. -/
def salesBatchLoop (upsertB : Nat → List Transaction → Except String Unit) :
    Nat → List (List Transaction) → Nat × List String → Nat × List String
  | _, [], st => st
  | idx, b :: rest, (inserted, errors) =>
    match upsertB idx b with
    | .ok _ => salesBatchLoop upsertB (idx + 1) rest (inserted + b.length, errors)
    | .error e =>
      salesBatchLoop upsertB (idx + 1) rest (inserted, errors ++ [s!"Batch {idx}: {e}"])

/-- The result dict of `upload_sales_csv`. -/
structure SalesResult where
  success : Bool
  inserted : Nat
  skipped : Nat
  total : Nat
  errors : List String
deriving Repr, DecidableEq

/-- Model of `upload_sales_csv` (supabase_uploader.py:305): `client` is the outcome of
`get_supabase_client` (`none` when unconfigured), `cashback_percent` and
`cashback_start_date` the app settings, `parsed` the outcome of
`parse_csv_file` (`.error` when reading raises), and `upsertB` the backend's
per-batch upsert outcome. Any exception outside the row loop is caught by
the outer handler as an `Upload failed` error. -/
def uploadSalesCsv (client : Option Unit) (cashback_percent : ℚ)
    (cashback_start_date : String) (source : String)
    (parsed : Except String (List SalesRow))
    (upsertB : Nat → List Transaction → Except String Unit) : SalesResult :=
  match client with
  | none =>
    { success := false, inserted := 0, skipped := 0, total := 0,
      errors := ["Supabase not configured"] }
  | some _ =>
    match strptimeYmd cashback_start_date with
    | .error e =>
      { success := false, inserted := 0, skipped := 0, total := 0,
        errors := [s!"Upload failed: {e}"] }
    | .ok cashback_start =>
      match parsed with
      | .error e =>
        { success := false, inserted := 0, skipped := 0, total := 0,
          errors := [s!"Upload failed: {e}"] }
      | .ok rows =>
        if rows.isEmpty then
          { success := true, inserted := 0, skipped := 0, total := rows.length,
            errors := [] }
        else
          let cfg : SalesCfg :=
            { cashback_rate := cashback_percent / 100,
              cashback_start := cashback_start, source := source }
          let acc := processSalesRows cfg 0 rows ⟨[], 0, [], []⟩
          let st :=
            salesBatchLoop upsertB 0 (listChunks 99 acc.transactions) (0, acc.errors)
          { success := st.2.isEmpty, inserted := st.1, skipped := acc.skipped,
            total := rows.length, errors := st.2 }

/-! ## Customer upload (supabase_uploader.py:457-574) -/

/-- A parsed customer CSV row: the columns `upload_customers_csv` reads. -/
structure CustomerRow where
  Documento : Option String := none
  Nome : Option String := none
  Telefone : Option String := none
  Email : Option String := none
  Data_Cadastro : Option String := none
  Data_Ultima_Compra : Option String := none
  Saldo_Carteira : Option String := none
  Quantidade_Compras : Option String := none
  Total_Compras : Option String := none
deriving Repr, DecidableEq

/-- One record of the `customer_map` dict built by `upload_customers_csv`. -/
structure Customer where
  doc : String
  nome : Option String
  telefone : Option String
  email : Option String
  data_cadastro : Option String
  saldo_carteira : ℚ
  first_visit : Option String
  last_visit : Option String
  transaction_count : Int
  total_spent : ℚ
  source : String
deriving Repr, DecidableEq

/-- Insert or overwrite a key in an insertion-ordered association list
(Python dict assignment semantics: an existing key keeps its position). -/
def dictUpsert (m : List (String × Customer)) (k : String) (v : Customer) :
    List (String × Customer) :=
  if m.any (fun p => p.1 = k) then
    m.map (fun p => if p.1 = k then (k, v) else p)
  else m ++ [(k, v)]

/-- Build the `customer_map` entry of one customer row
(supabase_uploader.py:496-523); `int` and `parse_br_number` can raise. -/
def buildCustomer (source : String) (row : CustomerRow) : Except String Customer := do
  let doc := normalize_cpf (row.Documento.getD "")
  let data_cadastro := parse_br_date (row.Data_Cadastro.getD "")
  let first_visit := parse_br_date_only (row.Data_Cadastro.getD "")
  let last_visit := parse_br_date_only (row.Data_Ultima_Compra.getD "")
  let saldo ← parse_br_number (row.Saldo_Carteira.getD "0")
  let qc := row.Quantidade_Compras.getD "0"
  let tcount ← if qc = "" then pure (0 : Int) else pyInt qc
  let total ← parse_br_number (row.Total_Compras.getD "0")
  return { doc := doc
           nome := orNone row.Nome
           telefone := orNone row.Telefone
           email := orNone row.Email
           data_cadastro := data_cadastro
           saldo_carteira := saldo
           first_visit := first_visit
           last_visit := last_visit
           transaction_count := tcount
           total_spent := total
           source := source }

/-- The state threaded through the customer row loop: the dedup-by-CPF map
and the skipped and error tallies. -/
structure CustRowAcc where
  customer_map : List (String × Customer)
  skipped : Nat
  errors : List String
deriving Repr, DecidableEq

/-- The row loop of `upload_customers_csv` (supabase_uploader.py:496-523):
skip rows with no valid CPF, record raising rows as errors, and otherwise
upsert into `customer_map`. -/
def processCustomerRows (source : String) :
    Nat → List CustomerRow → CustRowAcc → CustRowAcc
  | _, [], acc => acc
  | i, row :: rest, acc =>
    let doc := normalize_cpf (row.Documento.getD "")
    let acc' :=
      if doc = "" then { acc with skipped := acc.skipped + 1 }
      else
        match buildCustomer source row with
        | .error e => { acc with errors := acc.errors ++ [s!"Row {i + 1}: {e}"] }
        | .ok c => { acc with customer_map := dictUpsert acc.customer_map doc c }
    processCustomerRows source (i + 1) rest acc'

/-- An observable action of the customer batch loop: an attempt of the
smart-merge RPC, or of the simple overwrite-upsert, on batch `i`. -/
inductive CEvent where
  | smart (i : Nat)
  | simple (i : Nat)
deriving Repr, DecidableEq

/-- The response of the smart-merge RPC on one batch: `.error` when the call
raises, `.ok none` when it returns no data, `.ok (some (ins, upd))` when it
returns inserted/updated counts. -/
def SmartOutcome : Type := Except String (Option (Nat × Nat))

/-- The counters accumulated by the customer batch loop. -/
structure CustBatchAcc where
  inserted : Nat
  updated : Nat
  errors : List String
deriving Repr, DecidableEq

/-- The not-found signature of a missing RPC
(supabase_uploader.py:547): the error message names a missing function or
the PostgREST code `PGRST116`. -/
def rpcMissingSig (msg : String) : Bool :=
  pyIn "does not exist" msg || pyIn "PGRST116" msg

/-- The batch loop of `upload_customers_csv` (supabase_uploader.py:529-563).
While `use_smart` holds, each batch first tries the smart-merge RPC
(`smartB`); a raising call whose message matches the not-found signature
clears the flag for the rest of the run and falls through to the simple
upsert (`simpleB`) on the same batch, any other raising call is recorded as
a batch error. With the flag cleared every batch goes through the simple
upsert. Returns the final counters and the trace of attempted calls. -/
def custBatchLoop (smartB : Nat → SmartOutcome)
    (simpleB : Nat → Except String Unit) :
    Nat → List (List Customer) → Bool → CustBatchAcc →
    CustBatchAcc × List CEvent
  | _, [], _, acc => (acc, [])
  | idx, b :: rest, use_smart, acc =>
    if use_smart then
      match smartB idx with
      | .ok (some (ins, upd)) =>
        let r := custBatchLoop smartB simpleB (idx + 1) rest true
          { acc with inserted := acc.inserted + ins, updated := acc.updated + upd }
        (r.1, .smart idx :: r.2)
      | .ok none =>
        let r := custBatchLoop smartB simpleB (idx + 1) rest true acc
        (r.1, .smart idx :: r.2)
      | .error msg =>
        if rpcMissingSig msg then
          let acc1 :=
            match simpleB idx with
            | .ok _ => { acc with inserted := acc.inserted + b.length }
            | .error e => { acc with errors := acc.errors ++ [s!"Batch {idx}: {e}"] }
          let r := custBatchLoop smartB simpleB (idx + 1) rest false acc1
          (r.1, .smart idx :: .simple idx :: r.2)
        else
          let r := custBatchLoop smartB simpleB (idx + 1) rest true
            { acc with errors := acc.errors ++ [s!"Batch {idx}: {msg}"] }
          (r.1, .smart idx :: r.2)
    else
      let acc1 :=
        match simpleB idx with
        | .ok _ => { acc with inserted := acc.inserted + b.length }
        | .error e => { acc with errors := acc.errors ++ [s!"Batch {idx}: {e}"] }
      let r := custBatchLoop smartB simpleB (idx + 1) rest false acc1
      (r.1, .simple idx :: r.2)

/-- The result dict of `upload_customers_csv`. -/
structure CustResult where
  success : Bool
  inserted : Nat
  updated : Nat
  skipped : Nat
  total : Nat
  errors : List String
deriving Repr, DecidableEq

/-- Model of `upload_customers_csv` (supabase_uploader.py:457): parse rows, dedup by
CPF, then batch-upload through `custBatchLoop`; also returns the trace of
attempted backend calls. -/
def uploadCustomersCsv (client : Option Unit) (source : String)
    (parsed : Except String (List CustomerRow))
    (smartB : Nat → SmartOutcome) (simpleB : Nat → Except String Unit) :
    CustResult × List CEvent :=
  match client with
  | none =>
    ({ success := false, inserted := 0, updated := 0, skipped := 0, total := 0,
       errors := ["Supabase not configured"] }, [])
  | some _ =>
    match parsed with
    | .error e =>
      ({ success := false, inserted := 0, updated := 0, skipped := 0, total := 0,
         errors := [s!"Upload failed: {e}"] }, [])
    | .ok rows =>
      if rows.isEmpty then
        ({ success := true, inserted := 0, updated := 0, skipped := 0,
           total := rows.length, errors := [] }, [])
      else
        let acc := processCustomerRows source 0 rows ⟨[], 0, []⟩
        let customers := acc.customer_map.map (fun p => p.2)
        let r := custBatchLoop smartB simpleB 0
          (listChunks 99 customers) true ⟨0, 0, acc.errors⟩
        ({ success := r.1.errors.isEmpty, inserted := r.1.inserted,
           updated := r.1.updated, skipped := acc.skipped, total := rows.length,
           errors := r.1.errors }, r.2)

/-! ## File type detection (supabase_uploader.py:607-627) -/

/-- Model of `detect_file_type` (supabase_uploader.py:607): classify a file from its
first line; the argument is the outcome of reading that line (`.error` when
opening or reading raises). -/
def detect_file_type (readLine : Except String String) : String :=
  match readLine with
  | .error _ => "unknown"
  | .ok line =>
    let first_line := pyLower line
    if pyIn "data_hora" first_line || pyIn "maquinas" first_line then "sales"
    else if pyIn "documento" first_line || pyIn "saldo_carteira" first_line then
      "customer"
    else "unknown"

/-! # Claims

One theorem per claim of the frozen claim list, with counterexamples for
the claims the code refutes and witnesses for the theorems with
hypotheses. -/

/-! ## C5: delimiter detection -/

/-- C5 counterexample: the claim says semicolon wins a tie, but on the
first line `";,"`, where the semicolon and comma counts are equal, the
code returns a comma. -/
theorem claim_C5_counterexample :
    pyCountChar ";," ';' = pyCountChar ";," ',' ∧
    detect_delimiter ";," ≠ ";" ∧ detect_delimiter ";," = "," := by decide

/-- C5 (amended): the detected delimiter is a semicolon exactly when the
first line holds strictly more semicolons than commas; on a tie or a comma
majority it is a comma. -/
theorem claim_C5_strict_majority (text : String) :
    (pyCountChar ((pySplitChar text '\n').headD "") ';' >
        pyCountChar ((pySplitChar text '\n').headD "") ',' →
      detect_delimiter text = ";") ∧
    (pyCountChar ((pySplitChar text '\n').headD "") ';' ≤
        pyCountChar ((pySplitChar text '\n').headD "") ',' →
      detect_delimiter text = ",") := by
  by_cases h : text = ""
  · subst h; exact ⟨by decide, fun _ => by decide⟩
  · unfold detect_delimiter
    rw [if_neg h]
    constructor
    · intro hc; rw [if_pos hc]
    · intro hc; rw [if_neg (by omega)]

/-- C5 witness: both branches of `claim_C5_strict_majority` at concrete
first lines. -/
theorem claim_C5_witness :
    (pyCountChar ((pySplitChar ";;," '\n').headD "") ';' >
        pyCountChar ((pySplitChar ";;," '\n').headD "") ',' ∧
      detect_delimiter ";;," = ";") ∧
    (pyCountChar ((pySplitChar "a,b" '\n').headD "") ';' ≤
        pyCountChar ((pySplitChar "a,b" '\n').headD "") ',' ∧
      detect_delimiter "a,b" = ",") :=
  ⟨⟨by decide, (claim_C5_strict_majority ";;,").1 (by decide)⟩,
   ⟨by decide, (claim_C5_strict_majority "a,b").2 (by decide)⟩⟩

/-! ## C6: Brazilian date parsing -/

/-- C6 counterexample: the claim says every malformed input yields `none`,
but the parser does not validate that the components are numeric:
`"aa/bb/cccc"` is malformed yet parses to garbage instead of `none`. -/
theorem claim_C6_counterexample :
    parse_br_date "aa/bb/cccc" ≠ none ∧
    parse_br_date "aa/bb/cccc" = some "cccc-bb-aaT00:00:00" := by decide

/-- C6 (amended): `parse_br_date` is total and returns `none` exactly for
blank input or a date part that does not split into three `/`-separated
fields (numeric validity is not checked); well-formed inputs give the ISO
form, a date-only input gets time `00:00:00`, and a two-digit year is
expanded with a `20` prefix. -/
theorem claim_C6_parse_br_date_amended (s : String) :
    (parse_br_date s = none ↔
      pyStrip s = "" ∨
        (pySplitChar (pySplitOnce (pyStrip s) ' ').1 '/').length ≠ 3) ∧
    parse_br_date "15/03/2024 14:30:00" = some "2024-03-15T14:30:00" ∧
    parse_br_date "15/03/2024" = some "2024-03-15T00:00:00" ∧
    parse_br_date "15/03/24" = some "2024-03-15T00:00:00" := by
  refine ⟨?_, by decide, by decide, by decide⟩
  unfold parse_br_date
  by_cases h : pyStrip s = ""
  · simp [h]
  · rw [if_neg h]
    rcases hp : pySplitChar (pySplitOnce (pyStrip s) ' ').1 '/' with
      _ | ⟨a, _ | ⟨b, _ | ⟨c, _ | ⟨d, tl⟩⟩⟩⟩ <;>
      simp [hp, h]

/-! ## C10: file type detection -/

/-- C10: `detect_file_type` gives the sales keywords priority (a line with a
sales keyword is `"sales"` with no assumption on customer keywords), consults
the customer keywords only when no sales keyword matches, returns
`"unknown"` otherwise, and maps any read exception to `"unknown"`. -/
theorem claim_C10_detect_file_type (line e : String) :
    ((pyIn "data_hora" (pyLower line) || pyIn "maquinas" (pyLower line)) = true →
      detect_file_type (.ok line) = "sales") ∧
    ((pyIn "data_hora" (pyLower line) || pyIn "maquinas" (pyLower line)) = false →
      (pyIn "documento" (pyLower line) || pyIn "saldo_carteira" (pyLower line)) = true →
      detect_file_type (.ok line) = "customer") ∧
    ((pyIn "data_hora" (pyLower line) || pyIn "maquinas" (pyLower line)) = false →
      (pyIn "documento" (pyLower line) || pyIn "saldo_carteira" (pyLower line)) = false →
      detect_file_type (.ok line) = "unknown") ∧
    detect_file_type (.error e) = "unknown" := by
  refine ⟨fun h1 => ?_, fun h1 h2 => ?_, fun h1 h2 => ?_, rfl⟩
  · simp [detect_file_type, h1]
  · simp [detect_file_type, h1, h2]
  · simp [detect_file_type, h1, h2]

/-- C10 witness: a header carrying both a sales and a customer keyword is
classified `"sales"`, a customer-only header `"customer"`, and a raising
read `"unknown"`. -/
theorem claim_C10_witness :
    ((pyIn "data_hora" (pyLower "Data_Hora;Documento") ||
        pyIn "maquinas" (pyLower "Data_Hora;Documento")) = true ∧
      detect_file_type (.ok "Data_Hora;Documento") = "sales") ∧
    ((pyIn "data_hora" (pyLower "Documento;Saldo_Carteira") ||
        pyIn "maquinas" (pyLower "Documento;Saldo_Carteira")) = false ∧
      (pyIn "documento" (pyLower "Documento;Saldo_Carteira") ||
        pyIn "saldo_carteira" (pyLower "Documento;Saldo_Carteira")) = true ∧
      detect_file_type (.ok "Documento;Saldo_Carteira") = "customer") :=
  ⟨⟨by decide, (claim_C10_detect_file_type "Data_Hora;Documento" "x").1 (by decide)⟩,
   ⟨by decide, by decide,
    (claim_C10_detect_file_type "Documento;Saldo_Carteira" "x").2.1 (by decide)
      (by decide)⟩⟩

/-! ## C9: partiality of the number parser -/

/-- C9: `parse_br_number` returns `0` on every blank input without raising,
but raises (models as `.error`) on malformed non-empty inputs such as
`"abc"` and `"1,2,3"` (whose comma replacement yields `"1.2.3"`); inside
`upload_sales_csv` such a raise is recorded as a row error and not counted
as skipped. -/
theorem claim_C9_parse_br_number_not_total :
    (∀ s : String, pyStrip s = "" → parse_br_number s = .ok 0) ∧
    parse_br_number "abc" = .error "could not convert string to float: abc" ∧
    parse_br_number "1,2,3" = .error "could not convert string to float: 1.2.3" ∧
    (let res := uploadSalesCsv (some ()) (15 / 2) "2024-06-01" "automated_upload"
      (.ok [{ Data_Hora := some "15/03/2024", Doc_Cliente := some "111.444.777-35",
              Valor_Venda := some "abc" }])
      (fun _ _ => .ok ())
     res.errors = ["Row 1: could not convert string to float: abc"] ∧
       res.skipped = 0) := by
  refine ⟨?_, by decide, by decide, by decide, by decide⟩
  intro s h
  simp [parse_br_number, h]

/-- C9 witness: the blank-input clause of
`claim_C9_parse_br_number_partial` at the two-space string. -/
theorem claim_C9_witness :
    pyStrip "  " = "" ∧ parse_br_number "  " = .ok 0 :=
  ⟨by decide, claim_C9_parse_br_number_not_total.1 "  " (by decide)⟩

/-! ## C8: transaction classification order -/

/-- Bind on a successful `Except` computation reduces to the continuation. -/
theorem exceptOkBind {ε α β : Type} (a : α) (f : α → Except ε β) :
    ((Except.ok a : Except ε α) >>= f) = f a := rfl

/-- C8: `classify_transaction` applies its rules first-match-wins on every
row whose gross value parses: a recharge keyword in the machines field gives
`TYPE_3` regardless of payment method; otherwise a wallet-balance payment, or
zero gross with a nonempty machines field, gives `TYPE_2`; otherwise a
nonempty machines field with positive gross gives `TYPE_1`; every other row
gives `UNKNOWN`. -/
theorem claim_C8_classify_first_match (row : SalesRow) (g : ℚ)
    (hg : parse_br_number (row.Valor_Venda.getD "0") = .ok g) :
    (pyIn "recarga" (pyLower (row.Maquinas.getD "")) = true →
      classify_transaction row = .ok "TYPE_3") ∧
    (pyIn "recarga" (pyLower (row.Maquinas.getD "")) = false →
      (pyIn "saldo da carteira" (pyLower (row.Meio_de_Pagamento.getD "")) = true ∨
        (g = 0 ∧ pyLower (row.Maquinas.getD "") ≠ "")) →
      classify_transaction row = .ok "TYPE_2") ∧
    (pyIn "recarga" (pyLower (row.Maquinas.getD "")) = false →
      pyIn "saldo da carteira" (pyLower (row.Meio_de_Pagamento.getD "")) = false →
      ¬(g = 0 ∧ pyLower (row.Maquinas.getD "") ≠ "") →
      pyLower (row.Maquinas.getD "") ≠ "" → g > 0 →
      classify_transaction row = .ok "TYPE_1") ∧
    (pyIn "recarga" (pyLower (row.Maquinas.getD "")) = false →
      pyIn "saldo da carteira" (pyLower (row.Meio_de_Pagamento.getD "")) = false →
      ¬(g = 0 ∧ pyLower (row.Maquinas.getD "") ≠ "") →
      ¬(pyLower (row.Maquinas.getD "") ≠ "" ∧ g > 0) →
      classify_transaction row = .ok "UNKNOWN") := by
  refine ⟨fun h1 => ?_, fun h1 h2 => ?_, fun h1 h2 h3 h4 h5 => ?_,
    fun h1 h2 h3 h4 => ?_⟩
  · simp [classify_transaction, hg, exceptOkBind, h1]
  · rcases h2 with h2 | ⟨h2a, h2b⟩
    · simp [classify_transaction, hg, exceptOkBind, h1, h2]
    · by_cases hs : pyIn "saldo da carteira" (pyLower (row.Meio_de_Pagamento.getD "")) = true
      · simp [classify_transaction, hg, exceptOkBind, h1, hs]
      · simp [classify_transaction, hg, exceptOkBind, h1, hs, h2a, h2b]
        rfl
  · simp [classify_transaction, hg, exceptOkBind, h1, h2, h3, h4, h5, h5.ne']
    rfl
  · simp [classify_transaction, hg, exceptOkBind, h1, h2, h3, h4]
    rfl

/-- A recharge row paid by Pix (C8 witness input). -/
def c8RowRecarga : SalesRow :=
  { Maquinas := some "Recarga", Meio_de_Pagamento := some "Pix", Valor_Venda := some "20,00" }

/-- A wallet-balance purchase row (C8 witness input). -/
def c8RowSaldo : SalesRow :=
  { Meio_de_Pagamento := some "Saldo da carteira", Valor_Venda := some "15,00" }

/-- A normal purchase row (C8 witness input). -/
def c8RowNormal : SalesRow :=
  { Maquinas := some "Lavadora 1", Valor_Venda := some "15,00" }

/-- C8 witness: the four rules of `claim_C8_classify_first_match` at
concrete rows (a recharge paid by Pix, a wallet-balance purchase, a normal
purchase, and an empty zero-gross row). -/
theorem claim_C8_witness :
    (parse_br_number (c8RowRecarga.Valor_Venda.getD "0") = .ok 20 ∧
      pyIn "recarga" (pyLower (c8RowRecarga.Maquinas.getD "")) = true ∧
      classify_transaction c8RowRecarga = .ok "TYPE_3") ∧
    classify_transaction c8RowSaldo = .ok "TYPE_2" ∧
    classify_transaction c8RowNormal = .ok "TYPE_1" ∧
    classify_transaction ({} : SalesRow) = .ok "UNKNOWN" :=
  ⟨⟨by decide, by decide,
    (claim_C8_classify_first_match c8RowRecarga 20 (by decide)).1 (by decide)⟩,
   (claim_C8_classify_first_match c8RowSaldo 15 (by decide)).2.1 (by decide)
      (Or.inl (by decide)),
   (claim_C8_classify_first_match c8RowNormal 15 (by decide)).2.2.1 (by decide)
      (by decide) (by decide) (by decide) (by decide),
   (claim_C8_classify_first_match ({} : SalesRow) 0 (by decide)).2.2.2
      (by decide) (by decide) (by decide) (by decide)⟩

/-! ## C7: CPF normalization -/

/-- A `String.mk` carries its character list. -/
theorem strMk_data (l : List Char) : (⟨l⟩ : String).data = l := rfl

/-- The length of `String.mk` is the list length. -/
theorem strMk_length (l : List Char) : (⟨l⟩ : String).length = l.length := rfl

/-- A `String.mk` is the empty string exactly when its list is empty. -/
theorem strMk_eq_empty_iff (l : List Char) : (⟨l⟩ : String) = "" ↔ l = [] := by
  constructor
  · intro h
    have := congrArg String.data h
    simpa using this
  · rintro rfl
    rfl

/-- An ASCII digit is neither a plus nor a minus sign. -/
theorem digit_not_sign {c : Char} (h : c.isDigit = true) : ¬(c = '+' ∨ c = '-') := by
  rintro (rfl | rfl) <;> exact absurd h (by decide)

/-- Applying `pyZfill` to a nonempty all-digit string left-pads with zeros. -/
theorem pyZfill_all_digits (c : Char) (rest : List Char) (n : Nat)
    (hd : (c :: rest).all Char.isDigit = true) (hl : (c :: rest).length < n) :
    pyZfill ⟨c :: rest⟩ n = ⟨List.replicate (n - (c :: rest).length) '0' ++ c :: rest⟩ := by
  have hc : c.isDigit = true := by
    have := List.all_eq_true.mp hd c (by simp)
    simpa using this
  unfold pyZfill
  rw [if_neg (by rw [strMk_length]; omega)]
  exact if_neg (digit_not_sign hc)

/-- C7: `normalize_cpf` keeps only the digits of its input and returns the
empty string when none remain, the digits left-padded with zeros to length
11 when fewer than 11 remain, and the last 11 digits when more than 11
remain; the result is always empty or exactly 11 digits. -/
theorem claim_C7_normalize_cpf (s : String) :
    ((s.data.filter Char.isDigit).isEmpty = true → normalize_cpf s = "") ∧
    ((s.data.filter Char.isDigit).isEmpty = false →
      (s.data.filter Char.isDigit).length < 11 →
      normalize_cpf s =
        ⟨List.replicate (11 - (s.data.filter Char.isDigit).length) '0' ++
          s.data.filter Char.isDigit⟩) ∧
    ((s.data.filter Char.isDigit).length > 11 →
      normalize_cpf s =
        ⟨(s.data.filter Char.isDigit).drop
          ((s.data.filter Char.isDigit).length - 11)⟩) ∧
    (normalize_cpf s = "" ∨
      ((normalize_cpf s).length = 11 ∧
        ∀ c ∈ (normalize_cpf s).data, c.isDigit = true)) ∧
    normalize_cpf "123.456.789-01" = "12345678901" ∧
    normalize_cpf "5" = "00000000005" := by
  have hfd : ∀ c ∈ s.data.filter Char.isDigit, c.isDigit = true := by
    intro c hc
    exact (List.mem_filter.mp hc).2
  have empty_case : (s.data.filter Char.isDigit).isEmpty = true →
      normalize_cpf s = "" := by
    intro h
    have hnil : s.data.filter Char.isDigit = [] := by simpa using h
    unfold normalize_cpf
    by_cases hs : s = ""
    · rw [if_pos hs]
    · rw [if_neg hs, if_pos ((strMk_eq_empty_iff _).mpr hnil)]
  have pad_case : (s.data.filter Char.isDigit).isEmpty = false →
      (s.data.filter Char.isDigit).length < 11 →
      normalize_cpf s =
        ⟨List.replicate (11 - (s.data.filter Char.isDigit).length) '0' ++
          s.data.filter Char.isDigit⟩ := by
    intro h hl
    have hs : s ≠ "" := by
      intro hs
      subst hs
      simp at h
    rcases hne : s.data.filter Char.isDigit with _ | ⟨c, rest⟩
    · rw [hne] at h
      simp at h
    · unfold normalize_cpf
      rw [if_neg hs, hne,
        if_neg (by rw [strMk_eq_empty_iff]; exact fun hc => List.noConfusion hc),
        if_pos (by rw [strMk_length]; rw [hne] at hl; exact hl)]
      rw [hne] at hl
      have hall : (c :: rest).all Char.isDigit = true := by
        rw [List.all_eq_true]
        intro x hx
        rw [← hne] at hx
        simpa using hfd x hx
      rw [pyZfill_all_digits c rest 11 hall hl]
  have drop_case : (s.data.filter Char.isDigit).length > 11 →
      normalize_cpf s =
        ⟨(s.data.filter Char.isDigit).drop
          ((s.data.filter Char.isDigit).length - 11)⟩ := by
    intro hl
    have hs : s ≠ "" := by
      intro hs
      subst hs
      simp at hl
    have hnonnil : s.data.filter Char.isDigit ≠ [] := by
      intro hc
      rw [hc] at hl
      simp at hl
    unfold normalize_cpf
    rw [if_neg hs,
      if_neg (fun hc => hnonnil ((strMk_eq_empty_iff _).mp hc)),
      if_neg (by rw [strMk_length]; omega),
      if_pos (by rw [strMk_length]; exact hl)]
    rw [strMk_length, strMk_data]
  refine ⟨empty_case, pad_case, drop_case, ?_, by decide, by decide⟩
  rcases he : (s.data.filter Char.isDigit).isEmpty with _ | _
  · rcases Nat.lt_trichotomy (s.data.filter Char.isDigit).length 11 with hl | hl | hl
    · right
      rw [pad_case (by rw [he]) hl]
      constructor
      · rw [strMk_length]
        simp
        omega
      · intro c hc
        rw [strMk_data] at hc
        rcases List.mem_append.mp hc with hc | hc
        · have := List.eq_of_mem_replicate hc
          subst this
          decide
        · exact hfd c hc
    · right
      have heq : normalize_cpf s = ⟨s.data.filter Char.isDigit⟩ := by
        unfold normalize_cpf
        have hs : s ≠ "" := by
          intro hs
          subst hs
          simp at hl
        rw [if_neg hs,
          if_neg (fun hc =>
            by rw [(strMk_eq_empty_iff _).mp hc] at hl; simp at hl),
          if_neg (by rw [strMk_length]; omega),
          if_neg (by rw [strMk_length]; omega)]
      rw [heq]
      constructor
      · rw [strMk_length, hl]
      · intro c hc
        rw [strMk_data] at hc
        exact hfd c hc
    · right
      rw [drop_case hl]
      constructor
      · rw [strMk_length, List.length_drop]
        omega
      · intro c hc
        rw [strMk_data] at hc
        exact hfd c (List.drop_subset _ _ hc)
  · left
    exact empty_case he

/-- C7 witness: the padding branch of `claim_C7_normalize_cpf` at `"5"` and
the truncation branch at a 15-digit input. -/
theorem claim_C7_witness :
    (("5".data.filter Char.isDigit).isEmpty = false ∧
      ("5".data.filter Char.isDigit).length < 11 ∧
      normalize_cpf "5" =
        ⟨List.replicate (11 - ("5".data.filter Char.isDigit).length) '0' ++
          "5".data.filter Char.isDigit⟩) ∧
    (("123456789012345".data.filter Char.isDigit).length > 11 ∧
      normalize_cpf "123456789012345" =
        ⟨("123456789012345".data.filter Char.isDigit).drop
          (("123456789012345".data.filter Char.isDigit).length - 11)⟩) :=
  ⟨⟨by decide, by decide,
    (claim_C7_normalize_cpf "5").2.1 (by decide) (by decide)⟩,
   ⟨by decide,
    (claim_C7_normalize_cpf "123456789012345").2.2.1 (by decide)⟩⟩

/-! ## C1: deduplication hash -/

/-- Is `c` a lowercase hexadecimal digit? -/
def isHexDigitChar (c : Char) : Bool := c.isDigit || ('a' ≤ c && c ≤ 'f')

/-- Every output of `hexChar` is a hex digit. -/
theorem hexChar_isHex (n : Nat) : isHexDigitChar (hexChar n) = true := by
  have h : n % 16 < 16 := Nat.mod_lt _ (by norm_num)
  have key : ∀ m, m < 16 → isHexDigitChar (hexTable.getD m '0') = true := by decide
  exact key _ h

/-- A SHA-256 hex digest has 64 characters. -/
theorem sha256hexChars_length (msg : List Nat) : (sha256hexChars msg).length = 64 := by
  simp [sha256hexChars, wordHexChars]

/-- Every character of a word's hex rendering is a hex digit. -/
theorem mem_wordHexChars {w : Nat} {ch : Char} (h : ch ∈ wordHexChars w) :
    isHexDigitChar ch = true := by
  simp [wordHexChars] at h
  rcases h with rfl | rfl | rfl | rfl | rfl | rfl | rfl | rfl <;> exact hexChar_isHex _

/-- Every character of a SHA-256 hex digest is a hex digit. -/
theorem mem_sha256hexChars {msg : List Nat} {ch : Char}
    (h : ch ∈ sha256hexChars msg) : isHexDigitChar ch = true := by
  simp only [sha256hexChars, List.mem_append] at h
  rcases h with ((((((h | h) | h) | h) | h) | h) | h) | h <;> exact mem_wordHexChars h

/-- C1 counterexample: the claim says any two tuples differing in a raw
component hash differently, but the four fields are joined with a `|`
delimiter before hashing, so distinct tuples whose joined contents coincide
collide: `("a|b","c","d","e")` and `("a","b|c","d","e")` differ in every
component yet share one hash. -/
theorem claim_C1_counterexample :
    ((("a|b", "c", "d", "e") : String × String × String × String) ≠
      ("a", "b|c", "d", "e")) ∧
    generate_hash "a|b" "c" "d" "e" = generate_hash "a" "b|c" "d" "e" := by
  constructor
  · decide
  · decide

/-- C1 (amended): `generate_hash` is deterministic and always returns a
32-hex-character string, and two tuples hash identically whenever their
`|`-joined concatenations coincide — so discrimination holds only up to
that concatenation, not for every componentwise-distinct pair. -/
theorem claim_C1_generate_hash_amended (a b c d : String) :
    generate_hash a b c d = generate_hash a b c d ∧
    (generate_hash a b c d).length = 32 ∧
    (∀ ch ∈ (generate_hash a b c d).data, isHexDigitChar ch = true) ∧
    (∀ w x y z : String,
      a ++ "|" ++ b ++ "|" ++ c ++ "|" ++ d = w ++ "|" ++ x ++ "|" ++ y ++ "|" ++ z →
      generate_hash a b c d = generate_hash w x y z) := by
  refine ⟨rfl, ?_, ?_, ?_⟩
  · unfold generate_hash
    rw [strMk_length, List.length_take, sha256hexChars_length]
    decide
  · intro ch hch
    unfold generate_hash at hch
    rw [strMk_data] at hch
    exact mem_sha256hexChars (List.take_subset _ _ hch)
  · intro w x y z h
    unfold generate_hash
    rw [h]

/-- C1 witness: the concatenation-collision clause of
`claim_C1_generate_hash_amended` at the delimiter-injection pair. -/
theorem claim_C1_witness :
    "a|b" ++ "|" ++ "c" ++ "|" ++ "d" ++ "|" ++ "e" =
      "a" ++ "|" ++ "b|c" ++ "|" ++ "d" ++ "|" ++ "e" ∧
    generate_hash "a|b" "c" "d" "e" = generate_hash "a" "b|c" "d" "e" :=
  ⟨by decide,
   (claim_C1_generate_hash_amended "a|b" "c" "d" "e").2.2.2 "a" "b|c" "d" "e"
     (by decide)⟩

/-! ## C4: success accounting of the sales upload -/

/-- C4: for every client behaviour, settings, parse outcome and per-batch
upsert behaviour, `upload_sales_csv` reports `success = true` exactly when
its accumulated error list is empty — covering the no-client short-circuit,
the malformed-settings and unreadable-file outer catches, the empty-file
case, and the row- and batch-level error paths. -/
theorem claim_C4_success_iff_no_errors (client : Option Unit) (pct : ℚ)
    (start source : String) (parsed : Except String (List SalesRow))
    (upsertB : Nat → List Transaction → Except String Unit) :
    (uploadSalesCsv client pct start source parsed upsertB).success = true ↔
      (uploadSalesCsv client pct start source parsed upsertB).errors = [] := by
  unfold uploadSalesCsv
  cases client with
  | none => simp
  | some u =>
    cases strptimeYmd start with
    | error e => simp
    | ok cs =>
      cases parsed with
      | error e => simp
      | ok rows =>
        by_cases hr : rows.isEmpty
        · simp [hr]
        · simp [hr, List.isEmpty_iff]

/-! ## C2: in-run duplicate handling -/

/-- A valid sales row, used twice in one run for the C2 counterexample. -/
def c2DupRow : SalesRow :=
  { Data_Hora := some "15/03/2024 14:30:00", Doc_Cliente := some "123.456.789-01",
    Valor_Venda := some "10,00", Valor_Pago := some "10,00", Maquinas := some "Lavadora 1" }

/-- C2 counterexample: the claim says an in-run duplicate row is counted in
the returned `skipped` count, but a run over two identical rows (hence an
in-run hash duplicate) returns `skipped = 0`: the duplicate is dropped
(only one row reaches the upsert, `inserted = 1`) without touching either
`skipped` or `errors`. -/
theorem claim_C2_counterexample :
    (let res := uploadSalesCsv (some ()) (15 / 2) "2024-06-01" "automated_upload"
      (.ok [c2DupRow, c2DupRow]) (fun _ _ => .ok ())
     res.total = 2 ∧ res.skipped = 0 ∧ res.errors = [] ∧ res.inserted = 1) := by
  set_option maxRecDepth 100000 in decide

/-- C2 (amended): a row whose computed `import_hash` is already in the
`seen_hashes` set — and which reaches the dedup check, i.e. has a parseable
date, a nonempty normalized CPF and parseable money fields — is dropped
before the batch upsert with the run state entirely unchanged: it is not
added to the transactions, not counted as skipped, and not reported as an
error. -/
theorem claim_C2_dup_dropped_silently (cfg : SalesCfg) (acc : SalesAcc) (i : Nat)
    (row : SalesRow) (dh : String) (g p : ℚ)
    (h1 : parse_br_date (row.Data_Hora.getD "") = some dh)
    (h2 : normalize_cpf (row.Doc_Cliente.getD "") ≠ "")
    (h3 : parse_br_number (row.Valor_Venda.getD "0") = .ok g)
    (h4 : parse_br_number (row.Valor_Pago.getD "0") = .ok p)
    (h5 : generate_hash (row.Data_Hora.getD "") (row.Doc_Cliente.getD "")
        (row.Valor_Venda.getD "") (row.Maquinas.getD "") ∈ acc.seen) :
    processSalesRow cfg acc i row = acc := by
  unfold processSalesRow
  simp only [h1, h3, h4]
  rw [if_neg h2, if_pos h5]

/-- A row whose hash is already seen (C2 witness input). -/
def c2SeenRow : SalesRow :=
  { Data_Hora := some "15/03/2024", Doc_Cliente := some "123.456.789-01",
    Valor_Venda := some "1,50", Maquinas := some "Lavadora 2" }

/-- A run state that has already recorded the hash of `c2SeenRow`
(C2 witness input). -/
def c2Acc : SalesAcc :=
  { transactions := [], skipped := 3, errors := [],
    seen := [generate_hash "15/03/2024" "123.456.789-01" "1,50" "Lavadora 2"] }

/-- The settings of the C2 witness run. -/
def c2Cfg : SalesCfg :=
  { cashback_rate := 3 / 40, cashback_start := (2024, 6, 1),
    source := "automated_upload" }

/-- C2 witness: `claim_C2_dup_dropped_silently` on a concrete row whose
hash is already in the seen set. -/
theorem claim_C2_witness :
    parse_br_date (c2SeenRow.Data_Hora.getD "") = some "2024-03-15T00:00:00" ∧
    normalize_cpf (c2SeenRow.Doc_Cliente.getD "") ≠ "" ∧
    parse_br_number (c2SeenRow.Valor_Venda.getD "0") = .ok (3 / 2) ∧
    parse_br_number (c2SeenRow.Valor_Pago.getD "0") = .ok 0 ∧
    generate_hash (c2SeenRow.Data_Hora.getD "") (c2SeenRow.Doc_Cliente.getD "")
      (c2SeenRow.Valor_Venda.getD "") (c2SeenRow.Maquinas.getD "") ∈ c2Acc.seen ∧
    processSalesRow c2Cfg c2Acc 0 c2SeenRow = c2Acc := by
  have hmem : generate_hash (c2SeenRow.Data_Hora.getD "")
      (c2SeenRow.Doc_Cliente.getD "") (c2SeenRow.Valor_Venda.getD "")
      (c2SeenRow.Maquinas.getD "") ∈ c2Acc.seen :=
    List.mem_singleton.mpr rfl
  exact ⟨by decide, by decide, by decide, by decide, hmem,
    claim_C2_dup_dropped_silently c2Cfg c2Acc 0 c2SeenRow "2024-03-15T00:00:00"
      (3 / 2) 0 (by decide) (by decide) (by decide) (by decide) hmem⟩

/-! ## C3: permanent fallback from the smart-merge RPC -/

/-- With the smart flag cleared, the batch loop never attempts the smart
RPC again and attempts the simple upsert on every remaining batch. -/
theorem custBatchLoop_false_spec (smartB : Nat → SmartOutcome)
    (simpleB : Nat → Except String Unit) (batches : List (List Customer))
    (idx : Nat) (acc : CustBatchAcc) :
    (∀ k, CEvent.smart k ∉ (custBatchLoop smartB simpleB idx batches false acc).2) ∧
    (∀ k, idx ≤ k → k < idx + batches.length →
      CEvent.simple k ∈ (custBatchLoop smartB simpleB idx batches false acc).2) := by
  induction batches generalizing idx acc with
  | nil =>
    refine ⟨fun k h => by simp [custBatchLoop] at h, fun k hk1 hk2 => ?_⟩
    simp at hk2
    omega
  | cons b rest ih =>
    constructor
    · intro k h
      simp only [custBatchLoop, Bool.false_eq_true, if_false] at h
      rcases List.mem_cons.mp h with hc | hc
      · exact CEvent.noConfusion hc
      · exact (ih (idx + 1) _).1 k hc
    · intro k hk1 hk2
      simp only [custBatchLoop, Bool.false_eq_true, if_false]
      rcases Nat.eq_or_lt_of_le hk1 with rfl | hlt
      · exact List.mem_cons_self _ _
      · refine List.mem_cons_of_mem _ ((ih (idx + 1) _).2 k hlt ?_)
        simp at hk2
        omega

/-- Every event the batch loop emits carries a batch index at least the
starting index. -/
theorem custBatchLoop_trace_ge (smartB : Nat → SmartOutcome)
    (simpleB : Nat → Except String Unit) (batches : List (List Customer))
    (idx : Nat) (flag : Bool) (acc : CustBatchAcc) :
    ∀ k, (CEvent.smart k ∈ (custBatchLoop smartB simpleB idx batches flag acc).2 ∨
      CEvent.simple k ∈ (custBatchLoop smartB simpleB idx batches flag acc).2) →
      idx ≤ k := by
  induction batches generalizing idx flag acc with
  | nil =>
    intro k hk
    simp [custBatchLoop] at hk
  | cons b rest ih =>
    intro k hk
    cases flag with
    | false =>
      simp only [custBatchLoop, Bool.false_eq_true, if_false] at hk
      rcases hk with hk | hk <;> rcases List.mem_cons.mp hk with hc | hc
      · exact CEvent.noConfusion hc
      · exact Nat.le_of_succ_le (ih (idx + 1) false _ k (Or.inl hc))
      · exact le_of_eq (CEvent.simple.inj hc).symm
      · exact Nat.le_of_succ_le (ih (idx + 1) false _ k (Or.inr hc))
    | true =>
      simp only [custBatchLoop, if_true] at hk
      rcases hs : smartB idx with m | od
      · rw [hs] at hk
        by_cases hsg : rpcMissingSig m
        · simp only [hsg, if_true] at hk
          rcases hk with hk | hk <;> rcases List.mem_cons.mp hk with hc | hc
          · exact le_of_eq (CEvent.smart.inj hc).symm
          · rcases List.mem_cons.mp hc with hc2 | hc2
            · exact CEvent.noConfusion hc2
            · exact Nat.le_of_succ_le (ih (idx + 1) false _ k (Or.inl hc2))
          · exact CEvent.noConfusion hc
          · rcases List.mem_cons.mp hc with hc2 | hc2
            · exact le_of_eq (CEvent.simple.inj hc2).symm
            · exact Nat.le_of_succ_le (ih (idx + 1) false _ k (Or.inr hc2))
        · simp only [hsg, if_false] at hk
          rcases hk with hk | hk <;> rcases List.mem_cons.mp hk with hc | hc
          · exact le_of_eq (CEvent.smart.inj hc).symm
          · exact Nat.le_of_succ_le (ih (idx + 1) true _ k (Or.inl hc))
          · exact CEvent.noConfusion hc
          · exact Nat.le_of_succ_le (ih (idx + 1) true _ k (Or.inr hc))
      · rcases od with _ | ⟨ins, upd⟩ <;> rw [hs] at hk <;>
          rcases hk with hk | hk <;> rcases List.mem_cons.mp hk with hc | hc
        · exact le_of_eq (CEvent.smart.inj hc).symm
        · exact Nat.le_of_succ_le (ih (idx + 1) true _ k (Or.inl hc))
        · exact CEvent.noConfusion hc
        · exact Nat.le_of_succ_le (ih (idx + 1) true _ k (Or.inr hc))
        · exact le_of_eq (CEvent.smart.inj hc).symm
        · exact Nat.le_of_succ_le (ih (idx + 1) true _ k (Or.inl hc))
        · exact CEvent.noConfusion hc
        · exact Nat.le_of_succ_le (ih (idx + 1) true _ k (Or.inr hc))

/-- Once the batch loop, running with the smart flag set, attempts the
smart RPC on batch `j` and that call raises with the not-found signature,
no later batch attempts the smart RPC and every batch from `j` on is
attempted through the simple upsert. -/
theorem custBatchLoop_detect (smartB : Nat → SmartOutcome)
    (simpleB : Nat → Except String Unit) (batches : List (List Customer))
    (idx j : Nat) (acc : CustBatchAcc) (msg : String)
    (hj : smartB j = .error msg) (hsig : rpcMissingSig msg = true)
    (hmem : CEvent.smart j ∈ (custBatchLoop smartB simpleB idx batches true acc).2) :
    (∀ k, k > j →
      CEvent.smart k ∉ (custBatchLoop smartB simpleB idx batches true acc).2) ∧
    (∀ k, j ≤ k → k < idx + batches.length →
      CEvent.simple k ∈ (custBatchLoop smartB simpleB idx batches true acc).2) := by
  induction batches generalizing idx acc with
  | nil => simp [custBatchLoop] at hmem
  | cons b rest ih =>
    by_cases hij : idx = j
    · subst hij
      simp only [custBatchLoop, if_true, hj, hsig] at hmem ⊢
      constructor
      · intro k hk
        intro hmem'
        rcases List.mem_cons.mp hmem' with hc | hc
        · exact absurd (CEvent.smart.inj hc) (by omega)
        · rcases List.mem_cons.mp hc with hc2 | hc2
          · exact CEvent.noConfusion hc2
          · exact (custBatchLoop_false_spec smartB simpleB rest (idx + 1) _).1 k hc2
      · intro k hk1 hk2
        rcases Nat.eq_or_lt_of_le hk1 with rfl | hlt
        · exact List.mem_cons_of_mem _ (List.mem_cons_self _ _)
        · refine List.mem_cons_of_mem _ (List.mem_cons_of_mem _
            ((custBatchLoop_false_spec smartB simpleB rest (idx + 1) _).2 k hlt ?_))
          simp at hk2
          omega
    · rcases hs : smartB idx with m | od
      · by_cases hsg : rpcMissingSig m
        · exfalso
          simp only [custBatchLoop, if_true, hs, hsg] at hmem
          rcases List.mem_cons.mp hmem with hc | hc
          · exact hij (CEvent.smart.inj hc).symm
          · rcases List.mem_cons.mp hc with hc2 | hc2
            · exact CEvent.noConfusion hc2
            · exact (custBatchLoop_false_spec smartB simpleB rest (idx + 1) _).1 j hc2
        · simp only [custBatchLoop, if_true, hs, hsg, Bool.false_eq_true, if_false]
            at hmem ⊢
          have hmem1 : CEvent.smart j ∈
              (custBatchLoop smartB simpleB (idx + 1) rest true
                { acc with errors := acc.errors ++ [s!"Batch {idx}: {m}"] }).2 := by
            rcases List.mem_cons.mp hmem with hc | hc
            · exact absurd (CEvent.smart.inj hc).symm hij
            · exact hc
          have hjge : idx + 1 ≤ j :=
            custBatchLoop_trace_ge smartB simpleB rest (idx + 1) true _ j (Or.inl hmem1)
          have hrec := ih (idx + 1) _ hmem1
          constructor
          · intro k hk hmem'
            rcases List.mem_cons.mp hmem' with hc | hc
            · exact absurd (CEvent.smart.inj hc) (by omega)
            · exact hrec.1 k hk hc
          · intro k hk1 hk2
            refine List.mem_cons_of_mem _ (hrec.2 k hk1 ?_)
            simp at hk2
            omega
      · rcases od with _ | ⟨ins, upd⟩
        · simp only [custBatchLoop, if_true, hs] at hmem ⊢
          have hmem1 : CEvent.smart j ∈
              (custBatchLoop smartB simpleB (idx + 1) rest true acc).2 := by
            rcases List.mem_cons.mp hmem with hc | hc
            · exact absurd (CEvent.smart.inj hc).symm hij
            · exact hc
          have hjge : idx + 1 ≤ j :=
            custBatchLoop_trace_ge smartB simpleB rest (idx + 1) true _ j
              (Or.inl hmem1)
          have hrec := ih (idx + 1) _ hmem1
          constructor
          · intro k hk hmem'
            rcases List.mem_cons.mp hmem' with hc | hc
            · exact absurd (CEvent.smart.inj hc) (by omega)
            · exact hrec.1 k hk hc
          · intro k hk1 hk2
            refine List.mem_cons_of_mem _ (hrec.2 k hk1 ?_)
            simp at hk2
            omega
        · simp only [custBatchLoop, if_true, hs] at hmem ⊢
          have hmem1 : CEvent.smart j ∈
              (custBatchLoop smartB simpleB (idx + 1) rest true
                { acc with inserted := acc.inserted + ins,
                           updated := acc.updated + upd }).2 := by
            rcases List.mem_cons.mp hmem with hc | hc
            · exact absurd (CEvent.smart.inj hc).symm hij
            · exact hc
          have hjge : idx + 1 ≤ j :=
            custBatchLoop_trace_ge smartB simpleB rest (idx + 1) true _ j
              (Or.inl hmem1)
          have hrec := ih (idx + 1) _ hmem1
          constructor
          · intro k hk hmem'
            rcases List.mem_cons.mp hmem' with hc | hc
            · exact absurd (CEvent.smart.inj hc) (by omega)
            · exact hrec.1 k hk hc
          · intro k hk1 hk2
            refine List.mem_cons_of_mem _ (hrec.2 k hk1 ?_)
            simp at hk2
            omega

/-- When every smart-RPC failure carries the not-found signature and every
simple upsert succeeds, the batch loop appends no errors. -/
theorem custBatchLoop_errors_stable (smartB : Nat → SmartOutcome)
    (simpleB : Nat → Except String Unit) (batches : List (List Customer))
    (idx : Nat) (flag : Bool) (acc : CustBatchAcc)
    (hsmart : ∀ k m, smartB k = .error m → rpcMissingSig m = true)
    (hsimple : ∀ k, simpleB k = .ok ()) :
    (custBatchLoop smartB simpleB idx batches flag acc).1.errors = acc.errors := by
  induction batches generalizing idx flag acc with
  | nil => simp [custBatchLoop]
  | cons b rest ih =>
    cases flag with
    | false =>
      simp only [custBatchLoop, Bool.false_eq_true, if_false, hsimple idx]
      exact ih (idx + 1) false _
    | true =>
      rcases hs : smartB idx with m | od
      · simp only [custBatchLoop, if_true, hs, hsmart idx m hs, hsimple idx]
        exact ih (idx + 1) false _
      · rcases od with _ | ⟨ins, upd⟩ <;> simp only [custBatchLoop, if_true, hs] <;>
          exact ih (idx + 1) true _

/-- C3: in `upload_customers_csv`, once the smart-merge RPC has been
attempted on some batch `j` and raised with the not-found signature, no
later batch of that run attempts the smart RPC again, every batch from `j`
on (including batch `j` itself) is attempted through the simple
overwrite-upsert, and — when this degradation is the only failure mode
(rows produced no errors, every smart failure is a not-found one, every
simple upsert succeeds) — the run still returns `success = true`. -/
theorem claim_C3_smart_fallback_permanent (source : String)
    (rows : List CustomerRow) (smartB : Nat → SmartOutcome)
    (simpleB : Nat → Except String Unit) (j : Nat) (msg : String)
    (hj : smartB j = .error msg) (hsig : rpcMissingSig msg = true)
    (hmem : CEvent.smart j ∈
      (uploadCustomersCsv (some ()) source (.ok rows) smartB simpleB).2) :
    (∀ k, k > j → CEvent.smart k ∉
      (uploadCustomersCsv (some ()) source (.ok rows) smartB simpleB).2) ∧
    (∀ k, j ≤ k →
      k < (listChunks 99 ((processCustomerRows source 0 rows
        ⟨[], 0, []⟩).customer_map.map (fun p => p.2))).length →
      CEvent.simple k ∈
        (uploadCustomersCsv (some ()) source (.ok rows) smartB simpleB).2) ∧
    ((processCustomerRows source 0 rows ⟨[], 0, []⟩).errors = [] →
      (∀ k m, smartB k = .error m → rpcMissingSig m = true) →
      (∀ k, simpleB k = .ok ()) →
      (uploadCustomersCsv (some ()) source (.ok rows) smartB simpleB).1.success =
        true) := by
  unfold uploadCustomersCsv at hmem ⊢
  by_cases hr : rows.isEmpty
  · simp [hr] at hmem
  · simp only [hr, Bool.false_eq_true, if_false] at hmem ⊢
    have hdet := custBatchLoop_detect smartB simpleB
      (listChunks 99 ((processCustomerRows source 0 rows
        ⟨[], 0, []⟩).customer_map.map (fun p => p.2))) 0 j
      ⟨0, 0, (processCustomerRows source 0 rows ⟨[], 0, []⟩).errors⟩ msg hj hsig hmem
    refine ⟨hdet.1, ?_, ?_⟩
    · intro k hk1 hk2
      exact hdet.2 k hk1 (by omega)
    · intro herr hsmart hsimple
      rw [Bool.eq_iff_iff, List.isEmpty_iff]
      rw [custBatchLoop_errors_stable smartB simpleB _ 0 true _ hsmart hsimple]
      simp [herr]

/-- A customer row with a valid CPF (C3 witness input). -/
def c3Row : CustomerRow := { Documento := some "123.456.789-01", Nome := some "Ana" }

/-- A backend whose smart-merge RPC is missing (C3 witness input). -/
def c3Smart : Nat → SmartOutcome :=
  fun _ => .error "function upsert_customer_profiles_batch does not exist"

/-- A backend whose simple upsert always succeeds (C3 witness input). -/
def c3Simple : Nat → Except String Unit := fun _ => .ok ()

/-- C3 witness: on a one-batch run against a backend missing the smart RPC,
the smart attempt on batch 0 raises with the not-found signature, batch 1 is
never smart-attempted, batch 0 goes through the simple upsert, and the run
succeeds. -/
theorem claim_C3_witness :
    c3Smart 0 = .error "function upsert_customer_profiles_batch does not exist" ∧
    rpcMissingSig "function upsert_customer_profiles_batch does not exist" = true ∧
    CEvent.smart 0 ∈
      (uploadCustomersCsv (some ()) "automated_upload" (.ok [c3Row]) c3Smart
        c3Simple).2 ∧
    CEvent.smart 1 ∉
      (uploadCustomersCsv (some ()) "automated_upload" (.ok [c3Row]) c3Smart
        c3Simple).2 ∧
    CEvent.simple 0 ∈
      (uploadCustomersCsv (some ()) "automated_upload" (.ok [c3Row]) c3Smart
        c3Simple).2 ∧
    (uploadCustomersCsv (some ()) "automated_upload" (.ok [c3Row]) c3Smart
        c3Simple).1.success = true := by
  have h := claim_C3_smart_fallback_permanent "automated_upload" [c3Row] c3Smart
    c3Simple 0 "function upsert_customer_profiles_batch does not exist" rfl
    (by decide) (by decide)
  refine ⟨rfl, by decide, by decide, h.1 1 (by decide), h.2.1 0 (by decide)
    (by decide), h.2.2 (by decide) ?_ (fun k => rfl)⟩
  intro k m hm
  injection hm with h2
  subst h2
  decide

end Lavpop

